import Mathlib

/-!
Verification development for the homework-status Telegram bot
(single source file `homework.py`).

The embedding models the decoded JSON values the program manipulates as a
small inductive type `PyVal` of Python values, Python exceptions as `PyErr`,
and each source function (`get_api_answer`, `check_response`, `parse_status`,
`check_tokens`, and the loop body of `main`) as a Lean function over those
values.  Effects are made explicit: the single HTTP GET of a poll iteration
is an input (`HttpResult`), and the outbound Telegram sends, the GET itself
and the terminal sleep are recorded as an `Event` trace.
-/

/-- Python values as decoded from JSON (the only shapes the program touches):
`None`, `int`, `str`, `list`, and `dict` with string keys. -/
inductive PyVal where
  | pyNone : PyVal
  | pyInt : Int → PyVal
  | pyStr : String → PyVal
  | pyList : List PyVal → PyVal
  | pyDict : List (String × PyVal) → PyVal

/-- Python exception values, by class, carrying the message argument.
`getApiAnswerException`, `parametersApiException` and
`unknownStatusException` are the project-specific classes imported from the
repository module `exceptions`, which is not among the given sources;
modelled from the spec (flat failure kinds, plain `Exception` subclasses),
so they are unrelated to each other and to the library exception classes.
`requestsConnectionError` stands for `requests.exceptions.ConnectionError`,
the class the `requests` library raises on a transport failure, while
`connectionError` is the Python builtin `ConnectionError` named on line 89
of the source. -/
inductive PyErr where
  | typeError : String → PyErr
  | keyError : String → PyErr
  | attributeError : String → PyErr
  | getApiAnswerException : String → PyErr
  | parametersApiException : String → PyErr
  | unknownStatusException : String → PyErr
  | jsonDecodeError : String → PyErr
  | connectionError : String → PyErr
  | requestsConnectionError : String → PyErr
deriving DecidableEq

mutual

/-- Python `==` on the modelled values.  Structural throughout; for dicts
this is order-sensitive, unlike Python, but the program only ever compares
a string against list elements (`in` checks with string-literal needles),
where the two notions agree. -/
def pyEq : PyVal → PyVal → Bool
  | PyVal.pyNone, PyVal.pyNone => true
  | PyVal.pyInt a, PyVal.pyInt b => a == b
  | PyVal.pyStr a, PyVal.pyStr b => a == b
  | PyVal.pyList a, PyVal.pyList b => pyEqList a b
  | PyVal.pyDict a, PyVal.pyDict b => pyEqDict a b
  | _, _ => false

def pyEqList : List PyVal → List PyVal → Bool
  | [], [] => true
  | x :: xs, y :: ys => pyEq x y && pyEqList xs ys
  | _, _ => false

def pyEqDict : List (String × PyVal) → List (String × PyVal) → Bool
  | [], [] => true
  | (k, v) :: xs, (l, w) :: ys => k == l && pyEq v w && pyEqDict xs ys
  | _, _ => false

end

/-- Python truthiness of the modelled values. -/
def pyTruthy : PyVal → Bool
  | PyVal.pyNone => false
  | PyVal.pyInt n => n != 0
  | PyVal.pyStr s => s != ""
  | PyVal.pyList xs => !xs.isEmpty
  | PyVal.pyDict d => !d.isEmpty

/-- Python `x is None` on the modelled values. -/
def pyIsNone : PyVal → Bool
  | PyVal.pyNone => true
  | _ => false

/-- Lookup in a dict literal (first match; dict literals in play have
distinct keys). -/
def dictGet (d : List (String × PyVal)) (k : String) : Option PyVal :=
  match d with
  | [] => none
  | (k2, v) :: rest => if k2 == k then some v else dictGet rest k

/-- Does the second character list start with the first? -/
def charListStarts : List Char → List Char → Bool
  | [], _ => true
  | _ :: _, [] => false
  | a :: as, b :: bs => a == b && charListStarts as bs

/-- Is the needle a contiguous sublist of the haystack? -/
def charListHasSub (needle : List Char) : List Char → Bool
  | [] => charListStarts needle []
  | b :: bs => charListStarts needle (b :: bs) || charListHasSub needle bs

/-- Python substring test `needle in haystack` for strings. -/
def pySubstr (needle haystack : String) : Bool :=
  charListHasSub needle.data haystack.data

/-- Python `needle in container`.  `None` and `int` containers raise
`TypeError`; strings test substrings; lists test element equality; dicts
test key membership (unhashable needles raise `TypeError`). -/
def pyIn (needle : PyVal) (container : PyVal) : Except PyErr Bool :=
  match container with
  | PyVal.pyNone =>
      Except.error (PyErr.typeError "argument of type \x27NoneType\x27 is not iterable")
  | PyVal.pyInt _ =>
      Except.error (PyErr.typeError "argument of type \x27int\x27 is not iterable")
  | PyVal.pyStr s =>
      match needle with
      | PyVal.pyStr t => Except.ok (pySubstr t s)
      | _ => Except.error (PyErr.typeError "\x27in <string>\x27 requires string as left operand")
  | PyVal.pyList xs => Except.ok (xs.any fun x => pyEq needle x)
  | PyVal.pyDict d =>
      match needle with
      | PyVal.pyStr k => Except.ok (d.any fun kv => kv.1 == k)
      | PyVal.pyInt _ => Except.ok false
      | PyVal.pyNone => Except.ok false
      | PyVal.pyList _ => Except.error (PyErr.typeError "unhashable type: \x27list\x27")
      | PyVal.pyDict _ => Except.error (PyErr.typeError "unhashable type: \x27dict\x27")

/-- Python subscript `container[key]` with a string key: dict lookup
(`KeyError` when absent), `TypeError` on the other shapes. -/
def pySubscript (container : PyVal) (key : String) : Except PyErr PyVal :=
  match container with
  | PyVal.pyDict d =>
      match dictGet d key with
      | some v => Except.ok v
      | none => Except.error (PyErr.keyError key)
  | PyVal.pyList _ =>
      Except.error (PyErr.typeError "list indices must be integers or slices, not str")
  | PyVal.pyStr _ =>
      Except.error (PyErr.typeError "string indices must be integers")
  | PyVal.pyNone =>
      Except.error (PyErr.typeError "\x27NoneType\x27 object is not subscriptable")
  | PyVal.pyInt _ =>
      Except.error (PyErr.typeError "\x27int\x27 object is not subscriptable")

/-- Python method call `v.get(key)` (single-argument dict `get`, default
`None`); any non-dict receiver raises `AttributeError`. -/
def pyDictGetMethod (v : PyVal) (key : String) : Except PyErr PyVal :=
  match v with
  | PyVal.pyDict d => Except.ok ((dictGet d key).getD PyVal.pyNone)
  | _ => Except.error (PyErr.attributeError "object has no attribute \x27get\x27")

mutual

/-- Python `repr` of the modelled values (used by `str` on containers). -/
def pyRepr : PyVal → String
  | PyVal.pyNone => "None"
  | PyVal.pyInt n => toString n
  | PyVal.pyStr s => "\x27" ++ s ++ "\x27"
  | PyVal.pyList xs => "[" ++ pyReprList xs ++ "]"
  | PyVal.pyDict d => "\x7b" ++ pyReprDict d ++ "\x7d"

def pyReprList : List PyVal → String
  | [] => ""
  | [x] => pyRepr x
  | x :: rest => pyRepr x ++ ", " ++ pyReprList rest

def pyReprDict : List (String × PyVal) → String
  | [] => ""
  | [(k, v)] => "\x27" ++ k ++ "\x27: " ++ pyRepr v
  | (k, v) :: rest => "\x27" ++ k ++ "\x27: " ++ pyRepr v ++ ", " ++ pyReprDict rest

end

/-- Python `str` of a value, as interpolated by an f-string. -/
def pyStrOf : PyVal → String
  | PyVal.pyStr s => s
  | v => pyRepr v

/-- Python `str(exception)`: the message for ordinary exceptions, but for
`KeyError` the `repr` of the key (Python prints it quoted). -/
def errStr : PyErr → String
  | PyErr.typeError m => m
  | PyErr.keyError k => "\x27" ++ k ++ "\x27"
  | PyErr.attributeError m => m
  | PyErr.getApiAnswerException m => m
  | PyErr.parametersApiException m => m
  | PyErr.unknownStatusException m => m
  | PyErr.jsonDecodeError m => m
  | PyErr.connectionError m => m
  | PyErr.requestsConnectionError m => m

/-- Source line 34: `RETRY_TIME = 600`. -/
def RETRY_TIME : Nat := 600

/-- Source lines 39-43: the `HOMEWORK_STATUSES` verdict catalog. -/
def HOMEWORK_STATUSES : List (String × String) :=
  [("approved", "Работа проверена: ревьюеру всё понравилось. Ура!"),
   ("reviewing", "Работа взята на проверку ревьюером."),
   ("rejected", "Работа проверена: у ревьюера есть замечания.")]

/-- Catalog lookup `HOMEWORK_STATUSES[status]` (and its `in` test). -/
def lookupStatus (s : String) : Option String :=
  (HOMEWORK_STATUSES.find? fun kv => kv.1 == s).map fun kv => kv.2

/-- Result of the body of an HTTP 200/non-200 response: what `.json()`
yields.  The `json` standard library raises `JSONDecodeError` on an
unparseable body; a builtin `ConnectionError` can surface while the body is
read (the two classes line 86 and line 89 of the source handle). -/
inductive BodyResult where
  | parsed : PyVal → BodyResult
  | jsonDecodeError : String → BodyResult
  | connectionError : String → BodyResult

/-- Outcome of the `requests.get` call of one poll iteration: either a
response (status code plus body) or an exception raised by the call. -/
inductive HttpResult where
  | response : Nat → BodyResult → HttpResult
  | raised : PyErr → HttpResult

/-- Source line 67: `timestamp = current_timestamp or int(time.time())`,
with `now` standing for `int(time.time())`. -/
def get_api_answer_timestamp (current_timestamp : PyVal) (now : Int) : PyVal :=
  if pyTruthy current_timestamp then current_timestamp else PyVal.pyInt now

/-- Source line 68: `params = {'from_date': timestamp}`. -/
def get_api_answer_params (timestamp : PyVal) : PyVal :=
  PyVal.pyDict [("from_date", timestamp)]

/-- Source line 69: the guard `timestamp is None or params is None`. -/
def get_api_answer_guard (current_timestamp : PyVal) (now : Int) : Bool :=
  pyIsNone (get_api_answer_timestamp current_timestamp now) ||
    pyIsNone (get_api_answer_params (get_api_answer_timestamp current_timestamp now))

/-- Source lines 60-91, `get_api_answer`.  The single GET is abstracted as
the input `http`.  The `except GetApiAnswerException` clause around
`requests.get` (line 77) catches exactly instances of that class and
re-raises a bare `GetApiAnswerException` (line 79); any other exception the
call raises propagates unchanged.  A non-200 status raises
`GetApiAnswerException` with the status code (line 83); `JSONDecodeError`
and `ConnectionError` from `.json()` are re-raised unchanged (lines 84-91). -/
def get_api_answer (current_timestamp : PyVal) (now : Int) (http : HttpResult) :
    Except PyErr PyVal :=
  if get_api_answer_guard current_timestamp now then
    Except.error (PyErr.parametersApiException "Ошибка параметров для запроса к API")
  else
    match http with
    | HttpResult.raised e =>
        match e with
        | PyErr.getApiAnswerException _ => Except.error (PyErr.getApiAnswerException "")
        | _ => Except.error e
    | HttpResult.response code body =>
        if code ≠ 200 then
          Except.error (PyErr.getApiAnswerException ("Ошибка " ++ toString code))
        else
          match body with
          | BodyResult.parsed v => Except.ok v
          | BodyResult.jsonDecodeError m => Except.error (PyErr.jsonDecodeError m)
          | BodyResult.connectionError m => Except.error (PyErr.connectionError m)

/-- Source lines 94-110, `check_response`: reject non-dict responses with
`TypeError`; bind `homework = response.get('homeworks')`; raise `KeyError`
when `'homeworks' in homework` (note: the membership test is on the
extracted value, not on the response); reject non-list `homework` with
`TypeError`; otherwise return `homework`. -/
def check_response (response : PyVal) : Except PyErr PyVal :=
  match response with
  | PyVal.pyDict d =>
      let homework := (dictGet d "homeworks").getD PyVal.pyNone
      match pyIn (PyVal.pyStr "homeworks") homework with
      | Except.error e => Except.error e
      | Except.ok true => Except.error (PyErr.keyError "Нет ключа homeworks")
      | Except.ok false =>
          match homework with
          | PyVal.pyList xs => Except.ok (PyVal.pyList xs)
          | _ => Except.error (PyErr.typeError "Ответ не является списком")
  | _ => Except.error (PyErr.typeError "Запрос не соответвует формату")

/-- Source lines 113-132, `parse_status`: raise `KeyError` when
`'homework_name' not in homework`; raise `KeyError` when
`'homework_status' in homework` (note: presence, not absence, of that key
triggers the raise); subscript `homework['homework_name']` and
`homework['status']`; raise `UnknownStatusException` when the status is not
a catalog key; otherwise return the f-string interpolating the name and the
verdict. -/
def parse_status (homework : PyVal) : Except PyErr String :=
  match pyIn (PyVal.pyStr "homework_name") homework with
  | Except.error e => Except.error e
  | Except.ok hasName =>
      if !hasName then
        Except.error (PyErr.keyError "Отсутствует ключ \"homework_name\" в ответе API")
      else
        match pyIn (PyVal.pyStr "homework_status") homework with
        | Except.error e => Except.error e
        | Except.ok hasHwStatus =>
            if hasHwStatus then
              Except.error (PyErr.keyError "Отсутствует ключ \"status\" в ответе API")
            else
              match pySubscript homework "homework_name" with
              | Except.error e => Except.error e
              | Except.ok homework_name =>
                  match pySubscript homework "status" with
                  | Except.error e => Except.error e
                  | Except.ok homework_status =>
                      match homework_status with
                      | PyVal.pyStr s =>
                          match lookupStatus s with
                          | none =>
                              Except.error (PyErr.unknownStatusException "Неизвестный статус работы:")
                          | some verdict =>
                              Except.ok ("Изменился статус проверки работы \"" ++
                                pyStrOf homework_name ++ "\". " ++ verdict)
                      | PyVal.pyList _ =>
                          Except.error (PyErr.typeError "unhashable type: \x27list\x27")
                      | PyVal.pyDict _ =>
                          Except.error (PyErr.typeError "unhashable type: \x27dict\x27")
                      | _ =>
                          Except.error (PyErr.unknownStatusException "Неизвестный статус работы:")

/-- The three environment-sourced configuration values (lines 30-32); an
unset variable is `none`, a set one `some` of its string value. -/
structure Config where
  practicum_token : Option String
  telegram_token : Option String
  telegram_chat_id : Option String

/-- Python truthiness of an `os.getenv` result: unset or empty is falsy. -/
def envTruthy : Option String → Bool
  | none => false
  | some s => s != ""

/-- Source lines 135-142, `check_tokens`:
`all([PRACTICUM_TOKEN, TELEGRAM_TOKEN, TELEGRAM_CHAT_ID])`, with the module
globals passed explicitly. -/
def check_tokens (cfg : Config) : Bool :=
  envTruthy cfg.practicum_token && envTruthy cfg.telegram_token &&
    envTruthy cfg.telegram_chat_id

/-- Observable actions of one run of `main`: the GET issued with its
`from_date` value, a Telegram send from the status branch (line 161), a
Telegram send from the error branch (line 167), and the terminal
`time.sleep` of the `finally` block (line 170).  `send_message` swallows
`TelegramError` internally (lines 53-57), so a send event never feeds back
into the loop. -/
inductive Event where
  | apiCall : PyVal → Event
  | sendStatus : String → Event
  | sendError : String → Event
  | sleep : Nat → Event

/-- The mutable state `main` carries across iterations (lines 148-150):
the poll cursor `current_timestamp` and the two de-dup slots
`MESSAGE_STATUS` and `ERROR_CACHE_MESSAGE`. -/
structure LoopState where
  current_timestamp : PyVal
  message_status : String
  error_cache_message : String

/-- The compare-and-send logic both branches of `main` share
(lines 160-162 and 166-168): given the de-dup slot and the candidate
message, return the new slot value and whether a send happens. -/
def notifyIfChanged (last_sent message : String) : String × Bool :=
  if message ≠ last_sent then (message, true) else (last_sent, false)

/-- Source lines 163-168, the `except Exception` branch: log, form
`str(error)`, send it iff it differs from `ERROR_CACHE_MESSAGE`, updating
that slot on a send. -/
def errorBranch (st : LoopState) (e : PyErr) : LoopState × List Event :=
  let r := notifyIfChanged st.error_cache_message (errStr e)
  ({ st with error_cache_message := r.1 },
   if r.2 then [Event.sendError r.1] else [])

/-- Source lines 156-168, the `try`/`except` of one iteration of `main`:
fetch; on success set `current_timestamp = response.get('current_date')`,
then `parse_status(check_response(response))` (the list `check_response`
returns is passed to `parse_status` whole), then compare-and-send against
`MESSAGE_STATUS`; the first exception anywhere in the `try` diverts to the
error branch. -/
def loopBody (st : LoopState) (now : Int) (http : HttpResult) : LoopState × List Event :=
  match get_api_answer st.current_timestamp now http with
  | Except.error e => errorBranch st e
  | Except.ok response =>
      match pyDictGetMethod response "current_date" with
      | Except.error e => errorBranch st e
      | Except.ok cd =>
          let st1 := { st with current_timestamp := cd }
          match check_response response with
          | Except.error e => errorBranch st1 e
          | Except.ok hwlist =>
              match parse_status hwlist with
              | Except.error e => errorBranch st1 e
              | Except.ok message =>
                  let r := notifyIfChanged st1.message_status message
                  ({ st1 with message_status := r.1 },
                   if r.2 then [Event.sendStatus r.1] else [])

/-- One full iteration of the `while True` loop: the GET is issued with
`from_date` from line 67 (the guard of line 69 never fires, see
`C9_parameters_branch_unreachable`, so the request always happens), the
branch events follow, and the `finally` block appends
`time.sleep(RETRY_TIME)` on every exit path of the body. -/
def loopIter (st : LoopState) (now : Int) (http : HttpResult) : LoopState × List Event :=
  let r := loopBody st now http
  (r.1, Event.apiCall (get_api_answer_timestamp st.current_timestamp now) ::
    (r.2 ++ [Event.sleep RETRY_TIME]))

/-- Finitely many iterations of the loop, each given the wall-clock time
`now` at which it runs and the outcome of its GET; returns the final state
and the concatenated event trace. -/
def loopRun (st : LoopState) (iters : List (Int × HttpResult)) : LoopState × List Event :=
  match iters with
  | [] => (st, [])
  | (now, http) :: rest =>
      let r := loopIter st now http
      let r2 := loopRun r.1 rest
      (r2.1, r.2 ++ r2.2)

/-- The status-branch messages of a trace, in order. -/
def statusSends : List Event → List String
  | [] => []
  | Event.sendStatus m :: rest => m :: statusSends rest
  | _ :: rest => statusSends rest

/-- The error-branch messages of a trace, in order. -/
def errorSends : List Event → List String
  | [] => []
  | Event.sendError m :: rest => m :: errorSends rest
  | _ :: rest => errorSends rest

/-- Source line 152-154: the fatal startup message. -/
def FATAL_CONFIG_MESSAGE : String := "Отсутствует одна или несколько переменных окружения"

/-- Source lines 148-150: the state `main` enters the loop with
(`current_timestamp = int(time.time())`, both de-dup slots empty). -/
def initState (startTime : Int) : LoopState :=
  { current_timestamp := PyVal.pyInt startTime, message_status := "",
    error_cache_message := "" }

/-- Source lines 145-170, `main`, run for finitely many iterations.
`telegram.Bot(token=TELEGRAM_TOKEN)` on line 147 runs first and raises
`InvalidToken` when the bot credential is unset or empty (behaviour of the
external bot library); then `check_tokens` gates the loop with a fatal
`Exception` (line 154).  Either failure aborts the process before the
`while True` loop, so the result is `Except.error` with no events at all;
otherwise the loop runs. -/
def mainRun (cfg : Config) (startTime : Int) (iters : List (Int × HttpResult)) :
    Except String (List Event) :=
  if !envTruthy cfg.telegram_token then
    Except.error "InvalidToken"
  else if !check_tokens cfg then
    Except.error FATAL_CONFIG_MESSAGE
  else
    Except.ok (loopRun (initState startTime) iters).2

/-- The events a (possibly aborted) run of `main` performs: an aborted
startup performs none. -/
def mainEvents (r : Except String (List Event)) : List Event :=
  match r with
  | Except.error _ => []
  | Except.ok evs => evs

/-- Did `main` abort at startup (an uncaught exception before the loop)? -/
def aborted (r : Except String (List Event)) : Bool :=
  match r with
  | Except.error _ => true
  | Except.ok _ => false

/-- The decoded response of end-to-end scenario 1 of the spec. -/
def scenario1Response : PyVal :=
  PyVal.pyDict
    [("homeworks", PyVal.pyList
        [PyVal.pyDict [("homework_name", PyVal.pyStr "hw1"),
                       ("status", PyVal.pyStr "approved")]]),
     ("current_date", PyVal.pyInt 1000)]

/-- The `str()` form of the `KeyError` that `parse_status` raises when
handed the homework list itself. -/
def NAME_KEY_ERROR_STR : String :=
  "\x27Отсутствует ключ \"homework_name\" в ответе API\x27"

lemma statusSends_append (l1 l2 : List Event) :
    statusSends (l1 ++ l2) = statusSends l1 ++ statusSends l2 := by
  induction l1 with
  | nil => rfl
  | cons e rest ih => cases e <;> simp [statusSends, ih]

lemma errorSends_append (l1 l2 : List Event) :
    errorSends (l1 ++ l2) = errorSends l1 ++ errorSends l2 := by
  induction l1 with
  | nil => rfl
  | cons e rest ih => cases e <;> simp [errorSends, ih]

lemma timestamp_pyIsNone_false (ct : PyVal) (now : Int) :
    pyIsNone (get_api_answer_timestamp ct now) = false := by
  unfold get_api_answer_timestamp
  split
  next h => cases ct <;> simp_all [pyTruthy, pyIsNone]
  next => simp [pyIsNone]

lemma api_guard_false (ct : PyVal) (now : Int) : get_api_answer_guard ct now = false := by
  unfold get_api_answer_guard
  rw [timestamp_pyIsNone_false]
  simp [get_api_answer_params, pyIsNone]

lemma errorBranch_eq (st : LoopState) (e : PyErr) :
    errorBranch st e =
      if errStr e ≠ st.error_cache_message then
        ({ st with error_cache_message := errStr e }, [Event.sendError (errStr e)])
      else (st, []) := by
  by_cases hc : errStr e ≠ st.error_cache_message <;> simp [errorBranch, notifyIfChanged, hc]

lemma errorBranch_cursor (st : LoopState) (e : PyErr) :
    (errorBranch st e).1.current_timestamp = st.current_timestamp := by
  rw [errorBranch_eq]
  by_cases hc : errStr e ≠ st.error_cache_message
  · rw [if_pos hc]
  · rw [if_neg hc]

lemma errorBranch_statusSends (st : LoopState) (e : PyErr) :
    statusSends (errorBranch st e).2 = [] := by
  rw [errorBranch_eq]
  by_cases hc : errStr e ≠ st.error_cache_message
  · rw [if_pos hc]; rfl
  · rw [if_neg hc]; rfl

lemma errorBranch_error (st : LoopState) (e : PyErr) :
    (errorSends (errorBranch st e).2 = [] ∧
       (errorBranch st e).1.error_cache_message = st.error_cache_message) ∨
    (errorSends (errorBranch st e).2 = [(errorBranch st e).1.error_cache_message] ∧
       (errorBranch st e).1.error_cache_message ≠ st.error_cache_message) := by
  rw [errorBranch_eq]
  by_cases hc : errStr e ≠ st.error_cache_message
  · rw [if_pos hc]
    exact Or.inr ⟨rfl, hc⟩
  · rw [if_neg hc]
    exact Or.inl ⟨rfl, rfl⟩

lemma loopBody_status (st : LoopState) (now : Int) (http : HttpResult) :
    (statusSends (loopBody st now http).2 = [] ∧
       (loopBody st now http).1.message_status = st.message_status) ∨
    (statusSends (loopBody st now http).2 = [(loopBody st now http).1.message_status] ∧
       (loopBody st now http).1.message_status ≠ st.message_status) := by
  unfold loopBody
  split
  · exact Or.inl ⟨errorBranch_statusSends _ _, rfl⟩
  · split
    · exact Or.inl ⟨errorBranch_statusSends _ _, rfl⟩
    · split
      · exact Or.inl ⟨errorBranch_statusSends _ _, rfl⟩
      · split
        · exact Or.inl ⟨errorBranch_statusSends _ _, rfl⟩
        · rename_i msg heq
          by_cases hc : msg ≠ st.message_status
          · right
            constructor
            · simp [notifyIfChanged, hc, statusSends]
            · simp [notifyIfChanged, hc]
          · left
            rw [not_not] at hc
            constructor
            · simp [notifyIfChanged, hc, statusSends]
            · simp [notifyIfChanged, hc]

lemma loopBody_error (st : LoopState) (now : Int) (http : HttpResult) :
    (errorSends (loopBody st now http).2 = [] ∧
       (loopBody st now http).1.error_cache_message = st.error_cache_message) ∨
    (errorSends (loopBody st now http).2 = [(loopBody st now http).1.error_cache_message] ∧
       (loopBody st now http).1.error_cache_message ≠ st.error_cache_message) := by
  unfold loopBody
  split
  · exact errorBranch_error _ _
  · split
    · exact errorBranch_error _ _
    · split
      · exact errorBranch_error _ _
      · split
        · exact errorBranch_error _ _
        · rename_i msg heq
          left
          constructor
          · by_cases hc : msg ≠ st.message_status <;> simp [notifyIfChanged, hc, errorSends]
          · rfl

lemma loopIter_trace (st : LoopState) (now : Int) (http : HttpResult) :
    (loopIter st now http).2 =
      (Event.apiCall (get_api_answer_timestamp st.current_timestamp now) ::
        (loopBody st now http).2) ++ [Event.sleep RETRY_TIME] := rfl

lemma loopIter_fst (st : LoopState) (now : Int) (http : HttpResult) :
    (loopIter st now http).1 = (loopBody st now http).1 := rfl

lemma loopIter_statusSends (st : LoopState) (now : Int) (http : HttpResult) :
    statusSends (loopIter st now http).2 = statusSends (loopBody st now http).2 := by
  rw [loopIter_trace, statusSends_append]
  simp [statusSends]

lemma loopIter_errorSends (st : LoopState) (now : Int) (http : HttpResult) :
    errorSends (loopIter st now http).2 = errorSends (loopBody st now http).2 := by
  rw [loopIter_trace, errorSends_append]
  simp [errorSends]

lemma loopRun_cons (st : LoopState) (now : Int) (http : HttpResult)
    (rest : List (Int × HttpResult)) :
    loopRun st ((now, http) :: rest) =
      ((loopRun (loopIter st now http).1 rest).1,
       (loopIter st now http).2 ++ (loopRun (loopIter st now http).1 rest).2) := rfl

lemma getLastD_cons_eq (a b : String) (l : List String) :
    (b :: l).getLastD a = l.getLastD b :=
  List.getLastD_cons a b l

lemma loopRun_status_inv (st : LoopState) (iters : List (Int × HttpResult)) :
    List.Chain' Ne (st.message_status :: statusSends (loopRun st iters).2) ∧
    (loopRun st iters).1.message_status =
      (statusSends (loopRun st iters).2).getLastD st.message_status := by
  induction iters generalizing st with
  | nil => exact ⟨List.chain'_singleton _, rfl⟩
  | cons p rest ih =>
    obtain ⟨now, http⟩ := p
    have hr := ih (loopIter st now http).1
    rw [loopRun_cons, statusSends_append, loopIter_statusSends]
    rcases loopBody_status st now http with ⟨h0, h1⟩ | ⟨h0, h1⟩
    · rw [h0, List.nil_append]
      rw [loopIter_fst, h1] at hr
      exact hr
    · rw [h0, List.singleton_append]
      rw [loopIter_fst] at hr
      constructor
      · exact List.chain'_cons.mpr ⟨Ne.symm h1, hr.1⟩
      · rw [getLastD_cons_eq]
        exact hr.2
    
lemma loopRun_error_inv (st : LoopState) (iters : List (Int × HttpResult)) :
    List.Chain' Ne (st.error_cache_message :: errorSends (loopRun st iters).2) ∧
    (loopRun st iters).1.error_cache_message =
      (errorSends (loopRun st iters).2).getLastD st.error_cache_message := by
  induction iters generalizing st with
  | nil => exact ⟨List.chain'_singleton _, rfl⟩
  | cons p rest ih =>
    obtain ⟨now, http⟩ := p
    have hr := ih (loopIter st now http).1
    rw [loopRun_cons, errorSends_append, loopIter_errorSends]
    rcases loopBody_error st now http with ⟨h0, h1⟩ | ⟨h0, h1⟩
    · rw [h0, List.nil_append]
      rw [loopIter_fst, h1] at hr
      exact hr
    · rw [h0, List.singleton_append]
      rw [loopIter_fst] at hr
      constructor
      · exact List.chain'_cons.mpr ⟨Ne.symm h1, hr.1⟩
      · rw [getLastD_cons_eq]
        exact hr.2

/-- C1: the claimed success cycle does not happen on the code.  For the
scenario-1 response, `main` passes the whole homework list (not its one
entry) to `parse_status` (line 159), which therefore raises
`KeyError('Отсутствует ключ "homework_name" в ответе API')`; the iteration
sends exactly one error-branch message — whose text does not contain
"hw1" — and no status message, while the cursor does advance to 1000. -/
theorem C1_scenario1_sends_error_not_status :
    loopIter { current_timestamp := PyVal.pyInt 500, message_status := "",
               error_cache_message := "" } 999
        (HttpResult.response 200 (BodyResult.parsed scenario1Response)) =
      ({ current_timestamp := PyVal.pyInt 1000, message_status := "",
         error_cache_message := NAME_KEY_ERROR_STR },
       [Event.apiCall (PyVal.pyInt 500), Event.sendError NAME_KEY_ERROR_STR,
        Event.sleep 600]) ∧
    statusSends [Event.apiCall (PyVal.pyInt 500), Event.sendError NAME_KEY_ERROR_STR,
        Event.sleep 600] = [] ∧
    pySubstr "hw1" NAME_KEY_ERROR_STR = false :=
  ⟨rfl, rfl, rfl⟩

/-- C2: a decoded response that is a mapping without the 'homeworks' field
makes `check_response` raise `TypeError` (from evaluating
`'homeworks' in None` on line 106), not the claimed `KeyError`. -/
theorem C2_missing_homeworks_raises_typeerror :
    check_response (PyVal.pyDict []) =
      Except.error (PyErr.typeError "argument of type \x27NoneType\x27 is not iterable") ∧
    check_response (PyVal.pyDict [("current_date", PyVal.pyInt 1000)]) =
      Except.error (PyErr.typeError "argument of type \x27NoneType\x27 is not iterable") :=
  ⟨rfl, rfl⟩

/-- C3: the compare-and-send logic sends on the first call and not on the
second when run twice with the same message from a slot that differs from
it, and over any run of the loop no two consecutive status sends are equal
and no two consecutive error sends are equal. -/
theorem C3_notify_dedup (slot m : String) (h : slot ≠ m) (st : LoopState)
    (iters : List (Int × HttpResult)) :
    ((notifyIfChanged slot m).2 = true ∧
     (notifyIfChanged (notifyIfChanged slot m).1 m).2 = false) ∧
    List.Chain' Ne (statusSends (loopRun st iters).2) ∧
    List.Chain' Ne (errorSends (loopRun st iters).2) := by
  refine ⟨⟨?_, ?_⟩, ?_, ?_⟩
  · simp [notifyIfChanged, Ne.symm h]
  · simp [notifyIfChanged, Ne.symm h]
  · exact (loopRun_status_inv st iters).1.tail
  · exact (loopRun_error_inv st iters).1.tail

/-- C3 witness at concrete inputs. -/
theorem C3_notify_dedup_witness :
    ("" : String) ≠ "x" ∧
    (((notifyIfChanged "" "x").2 = true ∧
      (notifyIfChanged (notifyIfChanged "" "x").1 "x").2 = false) ∧
     List.Chain' Ne (statusSends (loopRun (initState 5) []).2) ∧
     List.Chain' Ne (errorSends (loopRun (initState 5) []).2)) :=
  ⟨by decide, C3_notify_dedup "" "x" (by decide) (initState 5) []⟩

/-- C4: an entry with a name field and a catalog status nevertheless makes
`parse_status` raise `KeyError` when it also carries a 'homework_status'
key, because the check on line 125 raises on the presence (not absence) of
that key; so the claimed success contract fails on the code. -/
theorem C4_format_fails_despite_valid_fields :
    dictGet [("homework_name", PyVal.pyStr "hw2"), ("status", PyVal.pyStr "approved"),
        ("homework_status", PyVal.pyStr "x")] "homework_name" = some (PyVal.pyStr "hw2") ∧
    lookupStatus "approved" = some "Работа проверена: ревьюеру всё понравилось. Ура!" ∧
    parse_status (PyVal.pyDict [("homework_name", PyVal.pyStr "hw2"),
        ("status", PyVal.pyStr "approved"), ("homework_status", PyVal.pyStr "x")]) =
      Except.error (PyErr.keyError "Отсутствует ключ \"status\" в ответе API") :=
  ⟨rfl, rfl, rfl⟩

/-- C5: `parse_status` signals a missing-field `KeyError` on an entry whose
name and status fields are both present (it suffices that the entry also
has a 'homework_status' key, line 125), refuting the claim's "only when the
name field or the status field is actually absent". -/
theorem C5_keyerror_with_both_fields_present :
    pyIn (PyVal.pyStr "homework_name") (PyVal.pyDict [("homework_name", PyVal.pyStr "hw3"),
        ("status", PyVal.pyStr "reviewing"), ("homework_status", PyVal.pyInt 1)]) =
      Except.ok true ∧
    pyIn (PyVal.pyStr "status") (PyVal.pyDict [("homework_name", PyVal.pyStr "hw3"),
        ("status", PyVal.pyStr "reviewing"), ("homework_status", PyVal.pyInt 1)]) =
      Except.ok true ∧
    parse_status (PyVal.pyDict [("homework_name", PyVal.pyStr "hw3"),
        ("status", PyVal.pyStr "reviewing"), ("homework_status", PyVal.pyInt 1)]) =
      Except.error (PyErr.keyError "Отсутствует ключ \"status\" в ответе API") :=
  ⟨rfl, rfl, rfl⟩

/-- C6: a transport failure raised by `requests.get` (a
`requests.exceptions.ConnectionError`) propagates out of `get_api_answer`
unchanged — the `except` clause on line 77 catches only
`GetApiAnswerException`, which `requests.get` never raises — instead of
being re-signaled as the fetch-failure kind; a non-200 response, by
contrast, is re-signaled as `GetApiAnswerException`. -/
theorem C6_transport_failure_not_converted :
    get_api_answer (PyVal.pyInt 500) 999
        (HttpResult.raised (PyErr.requestsConnectionError "Connection refused")) =
      Except.error (PyErr.requestsConnectionError "Connection refused") ∧
    get_api_answer (PyVal.pyInt 500) 999
        (HttpResult.response 500 (BodyResult.parsed PyVal.pyNone)) =
      Except.error (PyErr.getApiAnswerException "Ошибка 500") :=
  ⟨rfl, rfl⟩

/-- C7: with any of the three configuration values absent, `main` aborts at
startup (an uncaught exception before the `while True` loop) and performs
no events — in particular no API poll; with all three present (set and
non-empty), `check_tokens` returns `true` and the loop is entered. -/
theorem C7_missing_config_aborts_before_loop (cfg : Config) (startTime : Int)
    (iters : List (Int × HttpResult)) :
    ((cfg.practicum_token = none ∨ cfg.telegram_token = none ∨
        cfg.telegram_chat_id = none) →
      aborted (mainRun cfg startTime iters) = true ∧
      mainEvents (mainRun cfg startTime iters) = []) ∧
    (envTruthy cfg.practicum_token = true ∧ envTruthy cfg.telegram_token = true ∧
        envTruthy cfg.telegram_chat_id = true →
      check_tokens cfg = true ∧
      mainRun cfg startTime iters = Except.ok (loopRun (initState startTime) iters).2) := by
  constructor
  · intro h
    cases htel : envTruthy cfg.telegram_token with
    | false => simp [mainRun, htel, aborted, mainEvents]
    | true =>
      have hct : check_tokens cfg = false := by
        rcases h with h | h | h
        · simp [check_tokens, h, envTruthy]
        · rw [h] at htel
          simp [envTruthy] at htel
        · simp [check_tokens, h, envTruthy]
      simp [mainRun, htel, hct, aborted, mainEvents]
  · rintro ⟨h1, h2, h3⟩
    have hct : check_tokens cfg = true := by simp [check_tokens, h1, h2, h3]
    simp [mainRun, h2, hct]

/-- C7 witness: a configuration with the API credential absent aborts with
no events, and a fully present configuration passes `check_tokens` and
enters the loop. -/
theorem C7_missing_config_aborts_before_loop_witness :
    (aborted (mainRun (Config.mk none (some "t") (some "c")) 5 []) = true ∧
     mainEvents (mainRun (Config.mk none (some "t") (some "c")) 5 []) = []) ∧
    (check_tokens (Config.mk (some "p") (some "t") (some "c")) = true ∧
     mainRun (Config.mk (some "p") (some "t") (some "c")) 5 [] =
       Except.ok (loopRun (initState 5) []).2) :=
  ⟨(C7_missing_config_aborts_before_loop
      (Config.mk none (some "t") (some "c")) 5 []).1 (Or.inl rfl),
   (C7_missing_config_aborts_before_loop
      (Config.mk (some "p") (some "t") (some "c")) 5 []).2
     ⟨by decide, by decide, by decide⟩⟩

/-- C8: `RETRY_TIME` is 600, every iteration's trace ends with
`sleep RETRY_TIME` whatever the branch taken (the `finally` block), and a
run's trace is the iteration's trace followed by the remaining iterations,
so the sleep precedes the next iteration. -/
theorem C8_sleep_ends_every_iteration (st : LoopState) (now : Int) (http : HttpResult)
    (rest : List (Int × HttpResult)) :
    RETRY_TIME = 600 ∧
    ((loopIter st now http).2).getLast? = some (Event.sleep RETRY_TIME) ∧
    (loopRun st ((now, http) :: rest)).2 =
      (loopIter st now http).2 ++ (loopRun (loopIter st now http).1 rest).2 := by
  refine ⟨rfl, ?_, rfl⟩
  rw [loopIter_trace]
  exact List.getLast?_concat _

/-- C9: after line 67, `timestamp` is never `None` (the `or` substitutes
`int(time.time())` for every falsy value) and `params`, a freshly built
dict, is never `None`, so the guard of line 69 is false for every input and
the `ParametersApiException` branch is unreachable. -/
theorem C9_parameters_branch_unreachable (current_timestamp : PyVal) (now : Int) :
    get_api_answer_timestamp current_timestamp now ≠ PyVal.pyNone ∧
    get_api_answer_params (get_api_answer_timestamp current_timestamp now) ≠ PyVal.pyNone ∧
    get_api_answer_guard current_timestamp now = false := by
  refine ⟨?_, ?_, api_guard_false current_timestamp now⟩
  · intro h
    have hts := timestamp_pyIsNone_false current_timestamp now
    rw [h] at hts
    simp [pyIsNone] at hts
  · intro h
    simp [get_api_answer_params] at h

/-- C10: after a successful fetch whose decoded dict response lacks
'current_date', line 158 sets the cursor to `None`, and the next
iteration's GET therefore runs with `from_date = int(time.time())` (the
current time), not the prior cursor. -/
theorem C10_absent_current_date_resets_cursor (st : LoopState) (now now2 : Int)
    (d : List (String × PyVal)) (http2 : HttpResult)
    (hmiss : dictGet d "current_date" = none) :
    (loopIter st now (HttpResult.response 200 (BodyResult.parsed (PyVal.pyDict d)))).1.current_timestamp =
      PyVal.pyNone ∧
    ((loopIter (loopIter st now (HttpResult.response 200
        (BodyResult.parsed (PyVal.pyDict d)))).1 now2 http2).2).head? =
      some (Event.apiCall (PyVal.pyInt now2)) := by
  have hga : get_api_answer st.current_timestamp now
      (HttpResult.response 200 (BodyResult.parsed (PyVal.pyDict d))) =
      Except.ok (PyVal.pyDict d) := by
    simp [get_api_answer, api_guard_false]
  have hcd : pyDictGetMethod (PyVal.pyDict d) "current_date" = Except.ok PyVal.pyNone := by
    simp [pyDictGetMethod, hmiss]
  have hcur : (loopIter st now (HttpResult.response 200
      (BodyResult.parsed (PyVal.pyDict d)))).1.current_timestamp = PyVal.pyNone := by
    rw [loopIter_fst]
    unfold loopBody
    simp only [hga, hcd]
    split
    · exact errorBranch_cursor _ _
    · split
      · exact errorBranch_cursor _ _
      · rfl
  refine ⟨hcur, ?_⟩
  have hhead : ((loopIter (loopIter st now (HttpResult.response 200
      (BodyResult.parsed (PyVal.pyDict d)))).1 now2 http2).2).head? =
      some (Event.apiCall (get_api_answer_timestamp
        (loopIter st now (HttpResult.response 200
          (BodyResult.parsed (PyVal.pyDict d)))).1.current_timestamp now2)) := rfl
  rw [hhead, hcur]
  simp [get_api_answer_timestamp, pyTruthy]

/-- C10 witness at a concrete response lacking 'current_date'. -/
theorem C10_absent_current_date_resets_cursor_witness :
    dictGet [("homeworks", PyVal.pyList [])] "current_date" = none ∧
    ((loopIter (LoopState.mk (PyVal.pyInt 500) "" "") 7 (HttpResult.response 200
        (BodyResult.parsed (PyVal.pyDict [("homeworks", PyVal.pyList [])])))).1.current_timestamp =
      PyVal.pyNone ∧
     ((loopIter (loopIter (LoopState.mk (PyVal.pyInt 500) "" "") 7 (HttpResult.response 200
        (BodyResult.parsed (PyVal.pyDict [("homeworks", PyVal.pyList [])])))).1 9
        (HttpResult.raised (PyErr.requestsConnectionError "x"))).2).head? =
      some (Event.apiCall (PyVal.pyInt 9))) :=
  ⟨rfl, C10_absent_current_date_resets_cursor
    (LoopState.mk (PyVal.pyInt 500) "" "")
    7 9 [("homeworks", PyVal.pyList [])]
    (HttpResult.raised (PyErr.requestsConnectionError "x")) rfl⟩
